import Mathlib

/-!
Verification of the voice-activity-driven audio segmentation engine of
stt-clipboard (`src/audio_capture.py`, class `AudioRecorder`).

Shallow embedding conventions:
* Audio samples, timestamps, durations and VAD probabilities are modelled as
  rationals (`ℚ`); the Python code uses floats, but every claim under study is
  about comparison structure (`>` vs `>=`) and buffer bookkeeping, which the
  rational model captures faithfully.
* `collections.deque(maxlen=cap)` is modelled as a `List` together with
  `dequeExtend`, which appends and evicts the oldest elements beyond `cap`.
* Python `int()` (truncation toward zero) is modelled by `pyInt`.
* The sounddevice callback `_audio_callback` becomes the pure state
  transformer `audioCallback`; the `on_speech_start` user callback is
  modelled by the counter field `speech_start_count`.
* The blocking drivers `record_until_silence` / `record_continuous` are
  modelled as deterministic interpreters over an explicit session script that
  interleaves device-callback invocations with iterations of the Python
  polling loop; device exceptions are script items.
-/

namespace STTClipboard

/- Batteries marks the rational-number arithmetic operations `@[irreducible]`,
which prevents `decide` from evaluating concrete recorder runs; restore the
default reducibility inside this development. -/
attribute [local semireducible] Rat.add Rat.sub Rat.mul

/-- Audio samples: normalized amplitudes, modelled as rationals. -/
abbrev Sample := ℚ

/-- Python `int()` applied to a rational: truncation toward zero. -/
def pyInt (q : ℚ) : ℤ := if 0 ≤ q then ⌊q⌋ else ⌈q⌉

/-- `collections.deque(maxlen=cap).extend(xs)` on a deque currently holding
`buf`: append `xs`, then evict the oldest elements so that at most `cap`
remain (Python keeps the last `cap` elements). -/
def dequeExtend (cap : ℕ) (buf xs : List Sample) : List Sample :=
  let l := buf ++ xs
  l.drop (l.length - cap)

/-- `AudioConfig` (src/config.py lines 31-64): the fields consumed by
`AudioRecorder`.  `sample_rate`, `max_recording_duration`, `channels` and
`blocksize` are Python ints; durations are floats (here rationals). -/
structure AudioConfig where
  sample_rate : ℕ
  channels : ℕ
  silence_duration : ℚ
  min_speech_duration : ℚ
  max_recording_duration : ℕ
  blocksize : ℕ
deriving Repr, DecidableEq

/-- `VADConfig` (src/config.py lines 67-95): only `threshold` is consumed by
the capture core. -/
structure VADConfig where
  threshold : ℚ
deriving Repr, DecidableEq

/-- `max_samples = audio_config.sample_rate * audio_config.max_recording_duration`
(audio_capture.py line 40): capacity of the main ring buffer. -/
def maxSamples (a : AudioConfig) : ℕ := a.sample_rate * a.max_recording_duration

/-- `pre_buffer_samples = int(0.5 * sample_rate)` (lines 54-55): capacity of
the pre-roll ring buffer. -/
def preBufferSamples (a : AudioConfig) : ℕ :=
  (pyInt (mkRat 1 2 * (a.sample_rate : ℚ))).toNat

/-- `min_speech_samples = int(min_speech_duration * sample_rate)` (line 59). -/
def minSpeechSamples (a : AudioConfig) : ℤ :=
  pyInt (a.min_speech_duration * (a.sample_rate : ℚ))

/-- The mutable state of an `AudioRecorder` (lines 39-65) that the capture
logic reads and writes.  `buffer` is the main ring buffer, `pre_buffer` the
pre-roll ring buffer, both ordered oldest → newest.  The threading.Event
objects `_stop_continuous` and `_segment_ready` are booleans here, and the
`on_speech_start` callback is replaced by an invocation counter. -/
structure RecState where
  buffer : List Sample
  pre_buffer : List Sample
  is_recording : Bool
  speech_started : Bool
  last_speech_time : ℚ
  continuous_mode : Bool
  stop_continuous : Bool
  segment_ready : Bool
  current_segment : Option (List Sample)
  speech_start_count : ℕ
deriving Repr, DecidableEq

/-- Lines 161-173 of `_audio_callback`: the `WaitingForSpeech → Speaking`
transition body.  Sets `speech_started`, moves the pre-roll buffer into the
main buffer (only when non-empty, as in the Python guard `if self.pre_buffer:`)
and clears it, then fires `on_speech_start` (counted). -/
def speechStartTransition (a : AudioConfig) (st : RecState) : RecState :=
  let st1 := { st with speech_started := true }
  let st2 :=
    if st1.pre_buffer ≠ [] then
      { st1 with buffer := dequeExtend (maxSamples a) st1.buffer st1.pre_buffer,
                 pre_buffer := [] }
    else st1
  { st2 with speech_start_count := st2.speech_start_count + 1 }

/-- Lines 184-202 of `_audio_callback`: silence handling while
`speech_started`, applied after the silent chunk has been appended to the
main buffer.  If the silence gap reaches `silence_duration` (inclusive
comparison), continuous mode snapshots the main buffer as a segment when it
meets the minimum length and resets for the next segment; single-shot mode
stops the recording. -/
def silenceCutoffCheck (a : AudioConfig) (st : RecState) (now : ℚ) : RecState :=
  let silence_dur := now - st.last_speech_time
  if a.silence_duration ≤ silence_dur then
    if st.continuous_mode then
      let st1 :=
        if minSpeechSamples a ≤ (st.buffer.length : ℤ) then
          { st with current_segment := some st.buffer, segment_ready := true }
        else st
      { st1 with buffer := [], speech_started := false, last_speech_time := now }
    else
      { st with is_recording := false }
  else st

/-- `_audio_callback` (lines 132-206), given the already-computed speech
probability of the block.  `chunk` is the block's samples, `now` the value of
`time.time()` observed at line 153. -/
def audioCallback (a : AudioConfig) (v : VADConfig) (st : RecState)
    (chunk : List Sample) (prob : ℚ) (now : ℚ) : RecState :=
  let is_speech := v.threshold < prob
  if is_speech then
    let st1 := { st with last_speech_time := now }
    let st2 := if st1.speech_started then st1 else speechStartTransition a st1
    { st2 with buffer := dequeExtend (maxSamples a) st2.buffer chunk }
  else
    if st.speech_started then
      silenceCutoffCheck a
        { st with buffer := dequeExtend (maxSamples a) st.buffer chunk } now
    else
      { st with pre_buffer := dequeExtend (preBufferSamples a) st.pre_buffer chunk }

/-- `_detect_speech` (lines 94-130): the whole try-block (dtype conversion,
normalisation and the VAD model invocation) is abstracted as a fallible
classifier; any exception yields probability 0.0 (lines 128-130) and is not
propagated. -/
def detectSpeech (classify : List Sample → Except String ℚ)
    (chunk : List Sample) : ℚ :=
  match classify chunk with
  | Except.ok p => p
  | Except.error _ => 0

/-- `_audio_callback` including the `_detect_speech` call of line 151. -/
def audioCallbackClassified (a : AudioConfig) (v : VADConfig)
    (classify : List Sample → Except String ℚ) (st : RecState)
    (chunk : List Sample) (now : ℚ) : RecState :=
  audioCallback a v st chunk (detectSpeech classify chunk) now

/-- The state reset performed at the start of a capture session
(`record_until_silence` lines 214-220, `record_continuous` lines 283-294).
`continuous` is the `_continuous_mode` flag of the session. -/
def initState (startTime : ℚ) (continuous : Bool) : RecState :=
  { buffer := []
    pre_buffer := []
    is_recording := true
    speech_started := false
    last_speech_time := startTime
    continuous_mode := continuous
    stop_continuous := false
    segment_ready := false
    current_segment := none
    speech_start_count := 0 }

/-- Fold a sequence of device callbacks (chunk, probability, timestamp) over
the recorder state. -/
def runCallbacks (a : AudioConfig) (v : VADConfig) (st : RecState)
    (evs : List (List Sample × ℚ × ℚ)) : RecState :=
  List.foldl (fun s e => audioCallback a v s e.1 e.2.1 e.2.2) st evs

/-- One item of a single-shot session script: either a device-callback
invocation delivering a block, or one iteration of the polling loop of
`record_until_silence` observed at time `t`. -/
inductive SessionItem where
  | block (chunk : List Sample) (prob : ℚ) (t : ℚ)
  | poll (t : ℚ)
deriving Repr, DecidableEq

/-- Which exit of the `record_until_silence` polling loop fired
(instrumentation; the Python function only returns the audio or `None`).
`stoppedRecording` is the `while self.is_recording` condition turning false
(silence cutoff), `maxDuration` the line-242 break, `noSpeechTimeout` the
line-249 early `return None`. -/
inductive ExitCause where
  | stoppedRecording
  | maxDuration
  | noSpeechTimeout
deriving Repr, DecidableEq

/-- Lines 257-265 of `record_until_silence`: the post-loop minimum-length
check; too-short recordings yield `None`, otherwise the main buffer contents
are returned (`np.array(list(self.buffer))` preserves deque order). -/
def finalLengthCheck (a : AudioConfig) (st : RecState) : Option (List Sample) :=
  if (st.buffer.length : ℤ) < minSpeechSamples a then none
  else some st.buffer

/-- The polling loop of `record_until_silence` (lines 236-251) together with
the post-loop length check.  A `poll t` item performs, in order: the
`while self.is_recording` head test, the `elapsed >= max_recording_duration`
break (line 242, followed by the length check), and the
no-speech-after-5-seconds early return of `None` (line 249), all observed at
time `t`.  In the Python code the head test and the timeout tests of one
iteration happen at slightly different times with callbacks in between; the
script covers those interleavings by placing `block` items freely between
`poll` items, and bundling the tests into one `poll` is return-value
equivalent because every head-test exit and every max-duration exit lead to
the same length check, while the no-speech exit is incompatible with a
silence stop (which requires `speech_started`).  Returns `none` when the
script is exhausted with the session still running, otherwise the returned
value, the exit that fired, and the recorder state at exit. -/
def recordLoop (a : AudioConfig) (v : VADConfig) (startTime : ℚ) :
    RecState → List SessionItem →
    Option (Option (List Sample) × ExitCause × RecState)
  | _, [] => none
  | st, SessionItem.block chunk prob t :: rest =>
      recordLoop a v startTime (audioCallback a v st chunk prob t) rest
  | st, SessionItem.poll t :: rest =>
      if st.is_recording = false then
        some (finalLengthCheck a st, ExitCause.stoppedRecording, st)
      else if (a.max_recording_duration : ℚ) ≤ t - startTime then
        some (finalLengthCheck a st, ExitCause.maxDuration, st)
      else if st.speech_started = false ∧ 5 < t - startTime then
        some (none, ExitCause.noSpeechTimeout, st)
      else recordLoop a v startTime st rest

/-- `record_until_silence` (lines 208-270): state reset (lines 214-220,
`_continuous_mode` is left `False` on a recorder not in continuous mode)
followed by the polling loop over the session script. -/
def recordUntilSilence (a : AudioConfig) (v : VADConfig) (startTime : ℚ)
    (items : List SessionItem) :
    Option (Option (List Sample) × ExitCause × RecState) :=
  recordLoop a v startTime (initState startTime false) items

/-- Lines 253-255 of `record_until_silence`: any exception raised while
opening or running the audio stream is caught and the function returns
`None`. -/
def recordUntilSilenceDeviceError : Option (List Sample) := none

/-- One item of a continuous-mode session script: a device-callback
invocation, a `stop_continuous()` call (line 345, sets the stop event), one
iteration of the `record_continuous` polling loop (lines 310-321), or a
device exception raised inside the stream context (lines 330-331). -/
inductive ContItem where
  | block (chunk : List Sample) (prob : ℚ) (t : ℚ)
  | stopSignal
  | poll
  | deviceError
deriving Repr, DecidableEq

/-- The consumer loop of `record_continuous` (lines 310-331), returning the
list of yielded segments.  A `poll` item performs one iteration: the
`while not self._stop_continuous.is_set()` head test — on exit, the final
flush of lines 323-328 (yield the main buffer if it meets the minimum
length) — then the `_segment_ready` wait: when set, clear the event and
yield `_current_segment` if present.  A `deviceError` aborts the generator:
the exception is caught at line 330, logged, and nothing further is yielded
(no final flush).  An exhausted script means the generator is still
suspended, having yielded nothing further. -/
def contLoop (a : AudioConfig) (v : VADConfig) :
    RecState → List ContItem → List (List Sample)
  | _, [] => []
  | st, ContItem.block chunk prob t :: rest =>
      contLoop a v (audioCallback a v st chunk prob t) rest
  | st, ContItem.stopSignal :: rest =>
      contLoop a v { st with stop_continuous := true } rest
  | st, ContItem.poll :: rest =>
      if st.stop_continuous then
        if minSpeechSamples a ≤ (st.buffer.length : ℤ) then [st.buffer] else []
      else if st.segment_ready then
        match st.current_segment with
        | some seg =>
            seg :: contLoop a v
              { st with segment_ready := false, current_segment := none } rest
        | none => contLoop a v { st with segment_ready := false } rest
      else contLoop a v st rest
  | _, ContItem.deviceError :: _ => []

/-- `record_continuous` (lines 272-336): state reset with continuous mode
enabled (lines 283-294) followed by the consumer loop over the session
script. -/
def recordContinuous (a : AudioConfig) (v : VADConfig) (startTime : ℚ)
    (items : List ContItem) : List (List Sample) :=
  contLoop a v (initState startTime true) items

/-- `stop_continuous` (lines 338-345): sets the stop event. -/
def stopContinuous (st : RecState) : RecState :=
  { st with stop_continuous := true }

/-! ### Ring-buffer lemmas -/

theorem dequeExtend_length (cap : ℕ) (buf xs : List Sample) :
    (dequeExtend cap buf xs).length = min (buf.length + xs.length) cap := by
  simp only [dequeExtend, List.length_drop, List.length_append]
  omega

theorem dequeExtend_le_cap (cap : ℕ) (buf xs : List Sample) :
    (dequeExtend cap buf xs).length ≤ cap := by
  rw [dequeExtend_length]
  omega

theorem dequeExtend_of_le (cap : ℕ) (buf xs : List Sample)
    (h : buf.length + xs.length ≤ cap) : dequeExtend cap buf xs = buf ++ xs := by
  simp only [dequeExtend]
  rw [show (buf ++ xs).length - cap = 0 by simp; omega, List.drop_zero]

/-! ### Buffer-capacity invariant -/

/-- The main buffer and any pending segment snapshot respect the `maxSamples`
ring-buffer capacity. -/
def BufferInv (a : AudioConfig) (st : RecState) : Prop :=
  st.buffer.length ≤ maxSamples a ∧
    ∀ seg ∈ st.current_segment, seg.length ≤ maxSamples a

theorem bufferInv_init (a : AudioConfig) (t : ℚ) (c : Bool) :
    BufferInv a (initState t c) := by
  constructor
  · simp [initState]
  · intro seg hseg
    simp [initState] at hseg

theorem speechStartTransition_segment (a : AudioConfig) (st : RecState) :
    (speechStartTransition a st).current_segment = st.current_segment := by
  unfold speechStartTransition
  by_cases hpre : st.pre_buffer = [] <;> simp [hpre]

theorem speechStartTransition_buffer_cases (a : AudioConfig) (st : RecState) :
    (speechStartTransition a st).buffer = st.buffer ∨
      (speechStartTransition a st).buffer =
        dequeExtend (maxSamples a) st.buffer st.pre_buffer := by
  unfold speechStartTransition
  by_cases hpre : st.pre_buffer = [] <;> simp [hpre]

theorem silenceCutoffCheck_buffer_cases (a : AudioConfig) (st : RecState)
    (now : ℚ) :
    (silenceCutoffCheck a st now).buffer = st.buffer ∨
      (silenceCutoffCheck a st now).buffer = [] := by
  unfold silenceCutoffCheck
  by_cases hcut : a.silence_duration ≤ now - st.last_speech_time <;>
    by_cases hcont : st.continuous_mode <;>
    by_cases hmin : minSpeechSamples a ≤ (st.buffer.length : ℤ) <;>
    simp [hcut, hcont, hmin]

theorem silenceCutoffCheck_segment_cases (a : AudioConfig) (st : RecState)
    (now : ℚ) :
    (silenceCutoffCheck a st now).current_segment = st.current_segment ∨
      (silenceCutoffCheck a st now).current_segment = some st.buffer := by
  unfold silenceCutoffCheck
  by_cases hcut : a.silence_duration ≤ now - st.last_speech_time <;>
    by_cases hcont : st.continuous_mode <;>
    by_cases hmin : minSpeechSamples a ≤ (st.buffer.length : ℤ) <;>
    simp [hcut, hcont, hmin]

theorem bufferInv_audioCallback (a : AudioConfig) (v : VADConfig)
    (st : RecState) (chunk : List Sample) (prob now : ℚ)
    (h : BufferInv a st) :
    BufferInv a (audioCallback a v st chunk prob now) := by
  obtain ⟨h1, h2⟩ := h
  unfold audioCallback
  by_cases hp : v.threshold < prob
  · simp only [hp, if_true]
    constructor
    · exact dequeExtend_le_cap _ _ _
    · by_cases hs : st.speech_started
      · simpa [hs] using fun seg hseg => h2 seg hseg
      · simp only [hs]
        simpa [hs, speechStartTransition_segment] using
          fun seg hseg => h2 seg hseg
  · simp only [hp, if_false]
    by_cases hs : st.speech_started
    · rw [if_pos hs]
      constructor
      · rcases silenceCutoffCheck_buffer_cases a
            { st with buffer := dequeExtend (maxSamples a) st.buffer chunk }
            now with hb | hb <;> rw [hb]
        · exact dequeExtend_le_cap _ _ _
        · simp
      · rcases silenceCutoffCheck_segment_cases a
            { st with buffer := dequeExtend (maxSamples a) st.buffer chunk }
            now with hc | hc <;> rw [hc]
        · exact fun seg hseg => h2 seg hseg
        · intro seg hseg
          simp only [Option.mem_def, Option.some.injEq] at hseg
          subst hseg
          exact dequeExtend_le_cap _ _ _
    · simp only [hs]
      simpa [hs] using And.intro h1 (fun seg hseg => h2 seg hseg)

/-! ### Waiting-state invariant: while `WaitingForSpeech`, the main buffer is
empty, and the pre-roll buffer never exceeds its capacity. -/

def WaitingInv (a : AudioConfig) (st : RecState) : Prop :=
  (st.speech_started = false → st.buffer = []) ∧
    st.pre_buffer.length ≤ preBufferSamples a

theorem waitingInv_init (a : AudioConfig) (t : ℚ) (c : Bool) :
    WaitingInv a (initState t c) := by
  constructor <;> simp [initState]

theorem waitingInv_audioCallback (a : AudioConfig) (v : VADConfig)
    (st : RecState) (chunk : List Sample) (prob now : ℚ)
    (h : WaitingInv a st) :
    WaitingInv a (audioCallback a v st chunk prob now) := by
  obtain ⟨h1, h2⟩ := h
  unfold audioCallback
  by_cases hp : v.threshold < prob
  · simp only [hp, if_true]
    constructor
    · by_cases hs : st.speech_started <;>
        simp [hs, speechStartTransition]
      by_cases hpre : st.pre_buffer = [] <;> simp [hpre]
    · by_cases hs : st.speech_started <;>
        simp [hs, speechStartTransition, h2]
      by_cases hpre : st.pre_buffer = [] <;> simp [hpre, h2]
  · simp only [hp, if_false]
    by_cases hs : st.speech_started
    · rw [if_pos hs]
      unfold silenceCutoffCheck
      by_cases hcut : a.silence_duration ≤
          now - ({ st with buffer := dequeExtend (maxSamples a) st.buffer chunk} :
            RecState).last_speech_time <;>
        by_cases hcont : st.continuous_mode <;>
        by_cases hmin : minSpeechSamples a ≤
          ((dequeExtend (maxSamples a) st.buffer chunk).length : ℤ) <;>
        simp [hcut, hcont, hmin, hs, h2, WaitingInv]
    · simp only [hs]
      constructor
      · simp [hs, h1 (by simpa using hs)]
      · simp [dequeExtend_le_cap]

theorem waitingInv_runCallbacks (a : AudioConfig) (v : VADConfig)
    (evs : List (List Sample × ℚ × ℚ)) (st : RecState)
    (h : WaitingInv a st) :
    WaitingInv a (runCallbacks a v st evs) := by
  induction evs generalizing st with
  | nil => exact h
  | cons e rest ih =>
      exact ih _ (waitingInv_audioCallback a v st e.1 e.2.1 e.2.2 h)

/-! ### Driver lemmas -/

/-- Along `recordLoop`, the exit state inherits the buffer invariant and any
returned audio is exactly the exit state's main buffer. -/
theorem recordLoop_spec (a : AudioConfig) (v : VADConfig) (t0 : ℚ) :
    ∀ (items : List SessionItem) (st : RecState)
      (r : Option (List Sample)) (cause : ExitCause) (stE : RecState),
      recordLoop a v t0 st items = some (r, cause, stE) →
      BufferInv a st →
      BufferInv a stE ∧ ∀ d, r = some d → d = stE.buffer := by
  intro items
  induction items with
  | nil => intro st r cause stE h _; simp [recordLoop] at h
  | cons item rest ih =>
      intro st r cause stE h hinv
      cases item with
      | block chunk prob t =>
          exact ih _ r cause stE h
            (bufferInv_audioCallback a v st chunk prob t hinv)
      | poll t =>
          unfold recordLoop at h
          by_cases h1 : st.is_recording = false
          · rw [if_pos h1] at h
            obtain ⟨hr, hcause, hstE⟩ := by
              simpa using h
            subst hstE
            refine ⟨hinv, fun d hd => ?_⟩
            rw [← hr] at hd
            unfold finalLengthCheck at hd
            by_cases hlen : (st.buffer.length : ℤ) < minSpeechSamples a <;>
              simp [hlen] at hd
            exact hd.symm
          · rw [if_neg h1] at h
            by_cases h2 : (a.max_recording_duration : ℚ) ≤ t - t0
            · rw [if_pos h2] at h
              obtain ⟨hr, hcause, hstE⟩ := by simpa using h
              subst hstE
              refine ⟨hinv, fun d hd => ?_⟩
              rw [← hr] at hd
              unfold finalLengthCheck at hd
              by_cases hlen : (st.buffer.length : ℤ) < minSpeechSamples a <;>
                simp [hlen] at hd
              exact hd.symm
            · rw [if_neg h2] at h
              by_cases h3 : st.speech_started = false ∧ 5 < t - t0
              · rw [if_pos h3] at h
                obtain ⟨hr, hcause, hstE⟩ := by simpa using h
                subst hstE
                exact ⟨hinv, fun d hd => by simp [← hr] at hd⟩
              · rw [if_neg h3] at h
                exact ih _ r cause stE h hinv

/-- Every segment yielded by `contLoop` from a state satisfying the buffer
invariant respects the main ring-buffer capacity. -/
theorem contLoop_bounded (a : AudioConfig) (v : VADConfig) :
    ∀ (items : List ContItem) (st : RecState), BufferInv a st →
      ∀ seg ∈ contLoop a v st items, seg.length ≤ maxSamples a := by
  intro items
  induction items with
  | nil => intro st _ seg hseg; simp [contLoop] at hseg
  | cons item rest ih =>
      intro st hinv seg hseg
      cases item with
      | block chunk prob t =>
          exact ih _ (bufferInv_audioCallback a v st chunk prob t hinv) seg hseg
      | stopSignal =>
          refine ih _ ?_ seg hseg
          exact ⟨hinv.1, hinv.2⟩
      | deviceError => simp [contLoop] at hseg
      | poll =>
          unfold contLoop at hseg
          by_cases h1 : st.stop_continuous = true
          · rw [if_pos h1] at hseg
            by_cases h2 : minSpeechSamples a ≤ (st.buffer.length : ℤ) <;>
              simp [h2] at hseg
            rw [hseg]
            exact hinv.1
          · rw [if_neg h1] at hseg
            by_cases h2 : st.segment_ready = true
            · rw [if_pos h2] at hseg
              cases hcs : st.current_segment with
              | none =>
                  simp only [hcs] at hseg
                  exact ih { st with segment_ready := false, current_segment := none } ⟨hinv.1, by simp⟩ seg hseg
              | some pending =>
                  simp only [hcs] at hseg
                  rcases List.mem_cons.mp hseg with hseg | hseg
                  · rw [hseg]
                    exact hinv.2 pending (by simp [hcs])
                  · exact ih { st with segment_ready := false, current_segment := none } ⟨hinv.1, by simp⟩ seg hseg
            · rw [if_neg h2] at hseg
              exact ih _ hinv seg hseg

/-! ### Concrete configurations used to instantiate the theorems -/

/-- The repository's default configuration (src/config.py lines 59-64, 91):
16 kHz, 1.2 s silence cutoff, 0.3 s minimum speech, 30 s maximum, VAD
threshold 0.5. -/
def defaultAudioConfig : AudioConfig :=
  { sample_rate := 16000, channels := 1, silence_duration := mkRat 6 5,
    min_speech_duration := mkRat 3 10, max_recording_duration := 30,
    blocksize := 512 }

def defaultVADConfig : VADConfig := { threshold := mkRat 1 2 }

/-- A small valid configuration (2 Hz, 0.5 s minimum speech, 1 s silence,
3 s maximum) keeping concrete session evaluations small. -/
def tinyAudioConfig : AudioConfig :=
  { sample_rate := 2, channels := 1, silence_duration := 1,
    min_speech_duration := mkRat 1 2, max_recording_duration := 3, blocksize := 1 }

/-- A configuration whose `min_speech_duration * sample_rate` is not an
integer: 8000 Hz and 1/512 s (an exact binary float) give 15.625 samples,
truncated by `int()` to 15. -/
def fracAudioConfig : AudioConfig :=
  { sample_rate := 8000, channels := 1, silence_duration := mkRat 5 4,
    min_speech_duration := mkRat 1 512, max_recording_duration := 30,
    blocksize := 512 }

/-! ### Claims -/

/-- Claim C1: on the transition from WaitingForSpeech to Speaking (the first
processed block whose probability exceeds the threshold while
`speech_started` is false, here in a state reached from a session start),
the entire current pre-roll buffer content is appended to the main buffer
preserving order and the pre-roll buffer is cleared, with no sample
duplicated or dropped: immediately after the transfer and before the
triggering block is appended, the main buffer equals (so in particular has
the length of) the pre-roll buffer at the instant before the transition.
The pre-roll capacity must not exceed the main capacity, which holds for
every configuration with `max_recording_duration ≥ 1` second. -/
theorem speech_onset_transfers_preroll (a : AudioConfig) (v : VADConfig)
    (t0 now prob : ℚ) (c : Bool) (evs : List (List Sample × ℚ × ℚ))
    (chunk : List Sample) (st : RecState)
    (hreach : st = runCallbacks a v (initState t0 c) evs)
    (hcap : preBufferSamples a ≤ maxSamples a)
    (hws : st.speech_started = false)
    (hp : v.threshold < prob) :
    (speechStartTransition a { st with last_speech_time := now }).buffer
        = st.pre_buffer ∧
    (speechStartTransition a { st with last_speech_time := now }).buffer.length
        = st.pre_buffer.length ∧
    (speechStartTransition a { st with last_speech_time := now }).pre_buffer
        = [] ∧
    audioCallback a v st chunk prob now
      = { speechStartTransition a { st with last_speech_time := now } with
          buffer := dequeExtend (maxSamples a)
            (speechStartTransition a
              { st with last_speech_time := now }).buffer chunk } := by
  have hinv : WaitingInv a st := by
    rw [hreach]
    exact waitingInv_runCallbacks a v evs _ (waitingInv_init a t0 c)
  have hbuf : st.buffer = [] := hinv.1 hws
  have hpre : st.pre_buffer.length ≤ maxSamples a := le_trans hinv.2 hcap
  have hb1 : (speechStartTransition a
      { st with last_speech_time := now }).buffer = st.pre_buffer := by
    unfold speechStartTransition
    by_cases hpree : st.pre_buffer = []
    · simp [hpree, hbuf]
    · simp only [ne_eq, hpree, not_false_iff, if_true]
      simp only [hbuf]
      rw [dequeExtend_of_le _ _ _ (by simpa using hpre)]
      simp
  refine ⟨hb1, by rw [hb1], ?_, ?_⟩
  · unfold speechStartTransition
    by_cases hpree : st.pre_buffer = [] <;> simp [hpree]
  · unfold audioCallback
    simp only [hp, if_true, hws]
    simp [hws]

/-- Witness for C1: a default-configuration session where one silence block
filled the pre-roll buffer with `[1, 2]` and a probability-0.9 block then
arrives at time 2. -/
theorem speech_onset_transfers_preroll_witness :
    (speechStartTransition defaultAudioConfig
        { runCallbacks defaultAudioConfig defaultVADConfig (initState 0 false)
            [([1, 2], 0, 1)] with last_speech_time := 2 }).buffer
      = (runCallbacks defaultAudioConfig defaultVADConfig (initState 0 false)
          [([1, 2], 0, 1)]).pre_buffer ∧
    (speechStartTransition defaultAudioConfig
        { runCallbacks defaultAudioConfig defaultVADConfig (initState 0 false)
            [([1, 2], 0, 1)] with last_speech_time := 2 }).pre_buffer = [] := by
  have h := speech_onset_transfers_preroll defaultAudioConfig defaultVADConfig
    0 2 (mkRat 9 10) false [([1, 2], 0, 1)] [3]
    (runCallbacks defaultAudioConfig defaultVADConfig (initState 0 false)
      [([1, 2], 0, 1)])
    rfl (by decide) (by decide) (by decide)
  exact ⟨h.1, h.2.2.1⟩

/-- Claim C2: for every processed block, if the accumulator is waiting for
speech (`speech_started` false) and the block's probability does not exceed
the threshold, the block's samples are appended only to the pre-roll buffer
and the main buffer is unchanged; if it is speaking (`speech_started` true),
the block's samples are appended to the main buffer regardless of the
speech/silence classification — either the post-callback main buffer is the
old main buffer extended with the chunk, or (continuous-mode silence cutoff)
that extended buffer was snapshotted as the completed segment (when long
enough) and the main buffer reset. -/
theorem block_routing_by_state (a : AudioConfig) (v : VADConfig)
    (st : RecState) (chunk : List Sample) (prob now : ℚ) :
    (st.speech_started = false → ¬ v.threshold < prob →
      (audioCallback a v st chunk prob now).buffer = st.buffer ∧
      (audioCallback a v st chunk prob now).pre_buffer
        = dequeExtend (preBufferSamples a) st.pre_buffer chunk ∧
      (audioCallback a v st chunk prob now).speech_started = false) ∧
    (st.speech_started = true →
      (audioCallback a v st chunk prob now).buffer
          = dequeExtend (maxSamples a) st.buffer chunk ∨
      ((audioCallback a v st chunk prob now).buffer = [] ∧
        st.continuous_mode = true ∧ ¬ v.threshold < prob ∧
        (minSpeechSamples a
            ≤ ((dequeExtend (maxSamples a) st.buffer chunk).length : ℤ) →
          (audioCallback a v st chunk prob now).current_segment
            = some (dequeExtend (maxSamples a) st.buffer chunk)))) := by
  constructor
  · intro hws hp
    unfold audioCallback
    simp [hp, hws]
  · intro hs
    unfold audioCallback
    by_cases hp : v.threshold < prob
    · left
      simp [hp, hs]
    · rw [if_neg (by simpa using hp), if_pos hs]
      unfold silenceCutoffCheck
      by_cases hcut : a.silence_duration ≤
          now - ({ st with buffer := dequeExtend (maxSamples a) st.buffer chunk} :
            RecState).last_speech_time
      · by_cases hcont : st.continuous_mode
        · right
          by_cases hmin : minSpeechSamples a ≤
              ((dequeExtend (maxSamples a) st.buffer chunk).length : ℤ) <;>
            simp [hcut, hcont, hmin, hp]
        · left
          simp [hcut, hcont]
      · left
        simp [hcut]

/-- Witness for C2: with a waiting-state recorder and a silence block, the
chunk lands in the pre-roll buffer only; with a speaking-state recorder the
chunk lands in the main buffer. -/
theorem block_routing_by_state_witness :
    ((audioCallback defaultAudioConfig defaultVADConfig (initState 0 false)
        [4] (mkRat 1 10) 1).buffer = (initState 0 false).buffer ∧
      (audioCallback defaultAudioConfig defaultVADConfig (initState 0 false)
        [4] (mkRat 1 10) 1).pre_buffer
        = dequeExtend (preBufferSamples defaultAudioConfig)
            (initState 0 false).pre_buffer [4] ∧
      (audioCallback defaultAudioConfig defaultVADConfig (initState 0 false)
        [4] (mkRat 1 10) 1).speech_started = false) ∧
    ((audioCallback defaultAudioConfig defaultVADConfig
        { initState 0 false with speech_started := true } [4] (mkRat 9 10) 1).buffer
      = dequeExtend (maxSamples defaultAudioConfig)
          ({ initState 0 false with speech_started := true } :
            RecState).buffer [4] ∨
      ((audioCallback defaultAudioConfig defaultVADConfig
          { initState 0 false with speech_started := true } [4]
          (mkRat 9 10) 1).buffer = [] ∧
        ({ initState 0 false with speech_started := true } :
          RecState).continuous_mode = true ∧
        ¬ defaultVADConfig.threshold < mkRat 9 10 ∧
        (minSpeechSamples defaultAudioConfig
            ≤ ((dequeExtend (maxSamples defaultAudioConfig)
                ({ initState 0 false with speech_started := true } :
                  RecState).buffer [4]).length : ℤ) →
          (audioCallback defaultAudioConfig defaultVADConfig
              { initState 0 false with speech_started := true } [4]
              (mkRat 9 10) 1).current_segment
            = some (dequeExtend (maxSamples defaultAudioConfig)
                ({ initState 0 false with speech_started := true } :
                  RecState).buffer [4])))) :=
  ⟨(block_routing_by_state defaultAudioConfig defaultVADConfig
      (initState 0 false) [4] (mkRat 1 10) 1).1 (by decide) (by decide),
    (block_routing_by_state defaultAudioConfig defaultVADConfig
      { initState 0 false with speech_started := true } [4] (mkRat 9 10) 1).2
      (by decide)⟩

/-- Counterexample to claim C4 as stated: a block whose probability is
exactly the threshold, processed while Speaking in continuous mode with the
silence gap already at the cutoff, does update `last_speech_time` — the
continuous-mode segment reset (line 199) sets it to the current time (here
from 0 to 2). -/
theorem threshold_equal_updates_last_speech_time :
    (audioCallback defaultAudioConfig defaultVADConfig
        { initState 0 true with speech_started := true, buffer := [1] }
        [2] defaultVADConfig.threshold 2).last_speech_time = 2 ∧
    ({ initState 0 true with speech_started := true, buffer := [1] } :
      RecState).last_speech_time = 0 := by
  decide

/-- Claim C4 (amended): speech/silence classification is a strict
greater-than comparison against the threshold, so a block whose probability
is exactly the threshold is treated as silence: it never triggers the
WaitingForSpeech → Speaking transition (`on_speech_start` does not fire and
a waiting recorder stays waiting, with the block routed to the pre-roll
buffer), and the speech-branch update of `last_speech_time` (line 159) is
skipped — the only way such a block can change `last_speech_time` is the
continuous-mode segment reset performed when it completes a silence
cutoff. -/
theorem threshold_equal_is_silence (a : AudioConfig) (v : VADConfig)
    (st : RecState) (chunk : List Sample) (now : ℚ) :
    (audioCallback a v st chunk v.threshold now).speech_start_count
        = st.speech_start_count ∧
    (st.speech_started = false →
      (audioCallback a v st chunk v.threshold now).speech_started = false ∧
      (audioCallback a v st chunk v.threshold now).buffer = st.buffer ∧
      (audioCallback a v st chunk v.threshold now).pre_buffer
        = dequeExtend (preBufferSamples a) st.pre_buffer chunk ∧
      (audioCallback a v st chunk v.threshold now).last_speech_time
        = st.last_speech_time) ∧
    ((audioCallback a v st chunk v.threshold now).last_speech_time
        = st.last_speech_time ∨
      (st.speech_started = true ∧ st.continuous_mode = true ∧
        a.silence_duration ≤ now - st.last_speech_time ∧
        (audioCallback a v st chunk v.threshold now).last_speech_time = now ∧
        (audioCallback a v st chunk v.threshold now).speech_started
          = false)) := by
  have hp : ¬ v.threshold < v.threshold := lt_irrefl _
  refine ⟨?_, ?_, ?_⟩
  · unfold audioCallback
    by_cases hs : st.speech_started
    · rw [if_neg (by simp [hp]), if_pos hs]
      unfold silenceCutoffCheck
      by_cases hcut : a.silence_duration ≤
          now - ({ st with buffer := dequeExtend (maxSamples a) st.buffer chunk} :
            RecState).last_speech_time <;>
        by_cases hcont : st.continuous_mode <;>
        by_cases hmin : minSpeechSamples a ≤
          ((dequeExtend (maxSamples a) st.buffer chunk).length : ℤ) <;>
        simp [hcut, hcont, hmin]
    · simp [hp, hs]
  · intro hws
    unfold audioCallback
    simp [hp, hws]
  · unfold audioCallback
    by_cases hs : st.speech_started
    · rw [if_neg (by simp [hp]), if_pos hs]
      unfold silenceCutoffCheck
      by_cases hcut : a.silence_duration ≤
          now - ({ st with buffer := dequeExtend (maxSamples a) st.buffer chunk} :
            RecState).last_speech_time
      · by_cases hcont : st.continuous_mode
        · right
          by_cases hmin : minSpeechSamples a ≤
              ((dequeExtend (maxSamples a) st.buffer chunk).length : ℤ) <;>
            simp_all
        · left
          simp [hcut, hcont]
      · left
        simp [hcut]
    · left
      simp [hp, hs]

/-- Witness for the amended C4: a waiting recorder fed a block at exactly
the threshold stays waiting with `last_speech_time` untouched. -/
theorem threshold_equal_is_silence_witness :
    (audioCallback defaultAudioConfig defaultVADConfig (initState 0 false)
        [3] defaultVADConfig.threshold 1).speech_started = false ∧
    (audioCallback defaultAudioConfig defaultVADConfig (initState 0 false)
        [3] defaultVADConfig.threshold 1).last_speech_time
      = (initState 0 false).last_speech_time :=
  ⟨((threshold_equal_is_silence defaultAudioConfig defaultVADConfig
      (initState 0 false) [3] 1).2.1 (by decide)).1,
    ((threshold_equal_is_silence defaultAudioConfig defaultVADConfig
      (initState 0 false) [3] 1).2.1 (by decide)).2.2.2⟩

/-- Claim C5: the silence cutoff comparison is inclusive.  While Speaking, a
silence block processed at time `now` with `now - last_speech_time` at least
`silence_duration` (in particular when exactly equal) terminates the
segment: in continuous mode the segment is snapshotted (when long enough)
and the accumulator reset, in single-shot mode the recording stops.  A
silence block with `now - last_speech_time` strictly less than
`silence_duration` terminates nothing: the recording flag, segment-ready
flag and pending segment are unchanged and the recorder stays Speaking. -/
theorem silence_cutoff_inclusive (a : AudioConfig) (v : VADConfig)
    (st : RecState) (chunk : List Sample) (prob now : ℚ)
    (hs : st.speech_started = true) (hp : ¬ v.threshold < prob) :
    (a.silence_duration ≤ now - st.last_speech_time →
      (st.continuous_mode = true →
        (audioCallback a v st chunk prob now).speech_started = false ∧
        (audioCallback a v st chunk prob now).buffer = [] ∧
        (minSpeechSamples a
            ≤ ((dequeExtend (maxSamples a) st.buffer chunk).length : ℤ) →
          (audioCallback a v st chunk prob now).segment_ready = true ∧
          (audioCallback a v st chunk prob now).current_segment
            = some (dequeExtend (maxSamples a) st.buffer chunk))) ∧
      (st.continuous_mode = false →
        (audioCallback a v st chunk prob now).is_recording = false)) ∧
    (now - st.last_speech_time < a.silence_duration →
      (audioCallback a v st chunk prob now).is_recording = st.is_recording ∧
      (audioCallback a v st chunk prob now).speech_started = true ∧
      (audioCallback a v st chunk prob now).segment_ready = st.segment_ready ∧
      (audioCallback a v st chunk prob now).current_segment
        = st.current_segment ∧
      (audioCallback a v st chunk prob now).buffer
        = dequeExtend (maxSamples a) st.buffer chunk) := by
  unfold audioCallback
  rw [if_neg (by simpa using hp), if_pos hs]
  unfold silenceCutoffCheck
  constructor
  · intro hcut
    constructor
    · intro hcont
      by_cases hmin : minSpeechSamples a ≤
          ((dequeExtend (maxSamples a) st.buffer chunk).length : ℤ) <;>
        simp [hcut, hcont, hmin]
    · intro hcont
      simp [hcut, hcont]
  · intro hlt
    have hcut : ¬ a.silence_duration ≤
        now - ({ st with buffer := dequeExtend (maxSamples a) st.buffer chunk} :
          RecState).last_speech_time := by
      simpa using not_le.mpr hlt
    simp [hcut, hs]

/-- Witness for C5: with the default configuration, a silence block whose
gap is exactly `silence_duration` (1.2 s: `last_speech_time` 0, `now` 6/5)
stops a single-shot recording, and one with a strictly smaller gap does
not. -/
theorem silence_cutoff_inclusive_witness :
    (audioCallback defaultAudioConfig defaultVADConfig
        { initState 0 false with speech_started := true, buffer := [1] }
        [2] 0 (mkRat 6 5)).is_recording = false ∧
    (audioCallback defaultAudioConfig defaultVADConfig
        { initState 0 false with speech_started := true, buffer := [1] }
        [2] 0 1).is_recording
      = ({ initState 0 false with speech_started := true, buffer := [1] } :
          RecState).is_recording :=
  ⟨((silence_cutoff_inclusive defaultAudioConfig defaultVADConfig
        { initState 0 false with speech_started := true, buffer := [1] }
        [2] 0 (mkRat 6 5) (by decide) (by decide)).1
      (by decide)).2 (by decide),
    ((silence_cutoff_inclusive defaultAudioConfig defaultVADConfig
        { initState 0 false with speech_started := true, buffer := [1] }
        [2] 0 1 (by decide) (by decide)).2 (by decide)).1⟩

/-- Claim C6: a block on which the classifier raises is treated as having
probability exactly 0.0 for that block only: `detectSpeech` returns 0, the
callback's state change is exactly that of a probability-0 block (the
failure is swallowed, never propagated, and the session is not aborted), and
with a non-negative threshold such a block is classified as silence — a
waiting recorder stays waiting with the block routed to the pre-roll
buffer. -/
theorem classifier_failure_is_silence (a : AudioConfig) (v : VADConfig)
    (classify : List Sample → Except String ℚ) (st : RecState)
    (chunk : List Sample) (now : ℚ) (e : String)
    (herr : classify chunk = Except.error e) :
    detectSpeech classify chunk = 0 ∧
    audioCallbackClassified a v classify st chunk now
      = audioCallback a v st chunk 0 now ∧
    (0 ≤ v.threshold → st.speech_started = false →
      (audioCallbackClassified a v classify st chunk now).speech_started
        = false ∧
      (audioCallbackClassified a v classify st chunk now).buffer
        = st.buffer ∧
      (audioCallbackClassified a v classify st chunk now).pre_buffer
        = dequeExtend (preBufferSamples a) st.pre_buffer chunk) := by
  have hzero : detectSpeech classify chunk = 0 := by
    unfold detectSpeech
    rw [herr]
  refine ⟨hzero, ?_, ?_⟩
  · unfold audioCallbackClassified
    rw [hzero]
  · intro hth hws
    unfold audioCallbackClassified
    rw [hzero]
    have hp : ¬ v.threshold < 0 := not_lt.mpr hth
    unfold audioCallback
    simp [hp, hws]

/-- Witness for C6: a classifier that always fails, applied to a waiting
default-configuration recorder. -/
theorem classifier_failure_is_silence_witness :
    detectSpeech (fun _ => Except.error "VAD detection failed") [3] = 0 ∧
    audioCallbackClassified defaultAudioConfig defaultVADConfig
        (fun _ => Except.error "VAD detection failed") (initState 0 false)
        [3] 1
      = audioCallback defaultAudioConfig defaultVADConfig (initState 0 false)
          [3] 0 1 ∧
    (audioCallbackClassified defaultAudioConfig defaultVADConfig
        (fun _ => Except.error "VAD detection failed") (initState 0 false)
        [3] 1).speech_started = false :=
  ⟨(classifier_failure_is_silence defaultAudioConfig defaultVADConfig
      (fun _ => Except.error "VAD detection failed") (initState 0 false)
      [3] 1 "VAD detection failed" rfl).1,
    (classifier_failure_is_silence defaultAudioConfig defaultVADConfig
      (fun _ => Except.error "VAD detection failed") (initState 0 false)
      [3] 1 "VAD detection failed" rfl).2.1,
    ((classifier_failure_is_silence defaultAudioConfig defaultVADConfig
      (fun _ => Except.error "VAD detection failed") (initState 0 false)
      [3] 1 "VAD detection failed" rfl).2.2 (by decide) (by decide)).1⟩

/-- Along `recordLoop`, the no-speech timeout returns `None` and every other
exit returns the post-loop length check of the exit state. -/
theorem recordLoop_final (a : AudioConfig) (v : VADConfig) (t0 : ℚ) :
    ∀ (items : List SessionItem) (st : RecState)
      (r : Option (List Sample)) (cause : ExitCause) (stE : RecState),
      recordLoop a v t0 st items = some (r, cause, stE) →
      (cause = ExitCause.noSpeechTimeout → r = none) ∧
      (cause ≠ ExitCause.noSpeechTimeout → r = finalLengthCheck a stE) := by
  intro items
  induction items with
  | nil => intro st r cause stE h; simp [recordLoop] at h
  | cons item rest ih =>
      intro st r cause stE h
      cases item with
      | block chunk prob t => exact ih _ r cause stE h
      | poll t =>
          unfold recordLoop at h
          by_cases h1 : st.is_recording = false
          · rw [if_pos h1] at h
            obtain ⟨hr, hcause, hstE⟩ := by simpa using h
            subst hstE
            constructor
            · intro hc; rw [← hcause] at hc; cases hc
            · intro _; exact hr.symm
          · rw [if_neg h1] at h
            by_cases h2 : (a.max_recording_duration : ℚ) ≤ t - t0
            · rw [if_pos h2] at h
              obtain ⟨hr, hcause, hstE⟩ := by simpa using h
              subst hstE
              constructor
              · intro hc; rw [← hcause] at hc; cases hc
              · intro _; exact hr.symm
            · rw [if_neg h2] at h
              by_cases h3 : st.speech_started = false ∧ 5 < t - t0
              · rw [if_pos h3] at h
                obtain ⟨hr, hcause, hstE⟩ := by simpa using h
                subst hstE
                constructor
                · intro _; exact hr.symm
                · intro hc; rw [← hcause] at hc; simp at hc
              · rw [if_neg h3] at h
                exact ih _ r cause stE h

/-- A tiny single-shot session: one speech block, one silence block past the
cutoff, then a poll observing the stop. -/
def wSingleItems : List SessionItem :=
  [SessionItem.block [7] (mkRat 9 10) (mkRat 1 4),
   SessionItem.block [8] 0 (mkRat 3 2),
   SessionItem.poll 2]

/-- The exit state of `wSingleItems` (under `tinyAudioConfig` or
`defaultAudioConfig`; the callback state does not depend on the
configuration for this script). -/
def wSingleExit : RecState :=
  { buffer := [7, 8], pre_buffer := [], is_recording := false,
    speech_started := true, last_speech_time := mkRat 1 4,
    continuous_mode := false, stop_continuous := false,
    segment_ready := false, current_segment := none, speech_start_count := 1 }

/-- Counterexample to claim C3 as stated: the minimum-length gate compares
against `int(min_speech_duration * sample_rate)`, which truncates.  With
8000 Hz and `min_speech_duration = 1/512` s the product is 15.625 samples;
a session whose main buffer holds 15 samples at the max-duration exit —
fewer than `min_speech_duration * sample_rate` — is not discarded:
`record_until_silence` returns the 15-sample buffer. -/
theorem min_duration_gate_counterexample :
    (recordUntilSilence fracAudioConfig defaultVADConfig 0
        [SessionItem.block (List.replicate 15 1) (mkRat 9 10) (mkRat 1 2),
         SessionItem.poll 31]).map (fun x => x.1)
      = some (some (List.replicate 15 1)) ∧
    ((List.replicate 15 (1 : ℚ)).length : ℚ)
      < fracAudioConfig.min_speech_duration
          * (fracAudioConfig.sample_rate : ℚ) := by
  decide

/-- Claim C3 (amended): the minimum-length gate compares against
`min_speech_samples = int(min_speech_duration * sample_rate)`.  For every
session whose main buffer holds at least `min_speech_samples` samples when
the silence cutoff or max-duration exit fires, `record_until_silence`
returns exactly that buffer, hence audio of length at least
`min_speech_samples`; with fewer samples the utterance is discarded as too
short — `None` is returned in single-shot mode (the interpreter is total:
nothing is raised), a completed-but-short segment is not emitted in
continuous mode (the segment-ready flag and pending segment are untouched by
the cutoff), and the continuous final flush of a short buffer yields
nothing. -/
theorem min_duration_gate (a : AudioConfig) (v : VADConfig) (t0 : ℚ)
    (items : List SessionItem) (r : Option (List Sample)) (cause : ExitCause)
    (stE : RecState)
    (h : recordUntilSilence a v t0 items = some (r, cause, stE))
    (hc : cause ≠ ExitCause.noSpeechTimeout) :
    (minSpeechSamples a ≤ (stE.buffer.length : ℤ) →
      r = some stE.buffer ∧
      ∀ d, r = some d → minSpeechSamples a ≤ (d.length : ℤ)) ∧
    ((stE.buffer.length : ℤ) < minSpeechSamples a → r = none) ∧
    (∀ (st : RecState) (chunk : List Sample) (prob now : ℚ),
      st.speech_started = true → ¬ v.threshold < prob →
      ((dequeExtend (maxSamples a) st.buffer chunk).length : ℤ)
          < minSpeechSamples a →
      (audioCallback a v st chunk prob now).current_segment
          = st.current_segment ∧
      (audioCallback a v st chunk prob now).segment_ready
          = st.segment_ready) ∧
    (∀ (st : RecState) (rest : List ContItem), st.stop_continuous = true →
      (st.buffer.length : ℤ) < minSpeechSamples a →
      contLoop a v st (ContItem.poll :: rest) = []) := by
  have hfin := ((recordLoop_final a v t0 items _ r cause stE) h).2 hc
  refine ⟨?_, ?_, ?_, ?_⟩
  · intro hmin
    have hr : r = some stE.buffer := by
      rw [hfin]
      unfold finalLengthCheck
      rw [if_neg (not_lt.mpr hmin)]
    refine ⟨hr, fun d hd => ?_⟩
    rw [hr] at hd
    obtain rfl : stE.buffer = d := by simpa using hd
    exact hmin
  · intro hlen
    rw [hfin]
    unfold finalLengthCheck
    rw [if_pos hlen]
  · intro st chunk prob now hs hp hshort
    unfold audioCallback
    rw [if_neg (by simp [hp]), if_pos hs]
    unfold silenceCutoffCheck
    by_cases hcut : a.silence_duration ≤
        now - ({ st with buffer := dequeExtend (maxSamples a) st.buffer chunk} :
          RecState).last_speech_time
    · by_cases hcont : st.continuous_mode <;>
        simp [hcut, hcont, not_le.mpr hshort]
    · simp [hcut]
  · intro st rest hstop hlen
    unfold contLoop
    rw [if_pos hstop, if_neg (not_le.mpr hlen)]

/-- Witness for the amended C3: the tiny session `wSingleItems` exits with a
2-sample buffer, above the 1-sample minimum, and the returned audio is that
buffer. -/
theorem min_duration_gate_witness :
    (some [7, 8] : Option (List Sample)) = some wSingleExit.buffer :=
  ((min_duration_gate tinyAudioConfig defaultVADConfig 0 wSingleItems
      (some [7, 8]) ExitCause.stoppedRecording wSingleExit
      (by decide) (by decide)).1 (by decide)).1

/-- Counterexample to claim C7 as stated: two sessions with distinct failure
outcomes — a no-speech timeout and a silence-cutoff exit whose utterance is
too short — both make `record_until_silence` return the same value `None`,
and a device error also returns `None`; the failure variants are not
mutually distinguishable by the caller. -/
theorem outcome_collapse_counterexample :
    (recordUntilSilence defaultAudioConfig defaultVADConfig 0
        [SessionItem.poll 6]).map (fun x => (x.1, x.2.1))
      = some (none, ExitCause.noSpeechTimeout) ∧
    (recordUntilSilence defaultAudioConfig defaultVADConfig 0
        wSingleItems).map (fun x => (x.1, x.2.1))
      = some (none, ExitCause.stoppedRecording) ∧
    recordUntilSilenceDeviceError = none := by
  decide

/-- Claim C7 (amended): `record_until_silence` distinguishes success from
failure — on success it returns the recorded buffer, a `some` value never
equal to `None` — but every failure outcome (no-speech timeout, too-short
utterance, max-duration exit without sufficient audio, device error)
returns the single value `None`; the failure variants are not
distinguishable from each other by the caller. -/
theorem outcome_collapse (a : AudioConfig) (v : VADConfig) (t0 : ℚ)
    (items : List SessionItem) (r : Option (List Sample)) (cause : ExitCause)
    (stE : RecState)
    (h : recordUntilSilence a v t0 items = some (r, cause, stE)) :
    (cause = ExitCause.noSpeechTimeout → r = none) ∧
    ((stE.buffer.length : ℤ) < minSpeechSamples a → r = none) ∧
    (∀ d, r = some d →
      d = stE.buffer ∧ r ≠ (none : Option (List Sample))) ∧
    recordUntilSilenceDeviceError = none := by
  have hfin := recordLoop_final a v t0 items _ r cause stE h
  refine ⟨hfin.1, ?_, ?_, rfl⟩
  · intro hlen
    by_cases hc : cause = ExitCause.noSpeechTimeout
    · exact hfin.1 hc
    · rw [hfin.2 hc]
      unfold finalLengthCheck
      rw [if_pos hlen]
  · intro d hd
    by_cases hc : cause = ExitCause.noSpeechTimeout
    · rw [hfin.1 hc] at hd; cases hd
    · have hr := hfin.2 hc
      rw [hr] at hd
      unfold finalLengthCheck at hd
      by_cases hlen : (stE.buffer.length : ℤ) < minSpeechSamples a
      · rw [if_pos hlen] at hd; cases hd
      · rw [if_neg hlen] at hd
        obtain rfl : stE.buffer = d := by simpa using hd
        simp [hr, finalLengthCheck, if_neg hlen]

/-- Witness for the amended C7: the tiny session succeeds with the 2-sample
buffer, a value distinguishable from `None`. -/
theorem outcome_collapse_witness :
    [7, 8] = wSingleExit.buffer ∧
      (some [7, 8] : Option (List Sample)) ≠ (none : Option (List Sample)) :=
  (outcome_collapse tinyAudioConfig defaultVADConfig 0 wSingleItems
      (some [7, 8]) ExitCause.stoppedRecording wSingleExit
      (by decide)).2.2.1 [7, 8] rfl

/-- Claim C8: when `stop_continuous()` has been called while the main buffer
holds `k ≥ min_speech_samples` un-flushed samples, the next poll iteration
of `record_continuous` observes the stop and the sequence yields exactly one
final segment — the entire main buffer, of length `k`, so no sample already
pushed before the stop was observed is dropped — and then ends, yielding
zero further segments whatever the rest of the script holds. -/
theorem stop_flushes_pending_buffer (a : AudioConfig) (v : VADConfig)
    (st : RecState) (rest : List ContItem) (k : ℕ)
    (hlen : st.buffer.length = k)
    (hmin : minSpeechSamples a ≤ (k : ℤ)) :
    contLoop a v (stopContinuous st) (ContItem.poll :: rest)
        = [st.buffer] ∧
    (contLoop a v (stopContinuous st) (ContItem.poll :: rest)).length = 1 ∧
    ∀ seg ∈ contLoop a v (stopContinuous st) (ContItem.poll :: rest),
      seg.length = k := by
  have h1 : contLoop a v (stopContinuous st) (ContItem.poll :: rest)
      = [st.buffer] := by
    unfold contLoop stopContinuous
    simp [hlen, hmin]
  refine ⟨h1, by rw [h1]; rfl, ?_⟩
  intro seg hseg
  rw [h1] at hseg
  obtain rfl : seg = st.buffer := by simpa using hseg
  exact hlen

/-- Witness for C8: a continuous recorder holding two un-flushed samples
(minimum one) is stopped; the next poll flushes exactly that buffer. -/
theorem stop_flushes_pending_buffer_witness :
    contLoop tinyAudioConfig defaultVADConfig
        (stopContinuous { initState 0 true with buffer := [1, 2] })
        [ContItem.poll]
      = [({ initState 0 true with buffer := [1, 2] } : RecState).buffer] :=
  (stop_flushes_pending_buffer tinyAudioConfig defaultVADConfig
      { initState 0 true with buffer := [1, 2] } [] 2
      (by decide) (by decide)).1

/-- Counterexample to claim C9 as stated: in continuous mode a device-level
I/O failure produces exactly the same observable sequence as a cooperative
`stop_continuous()` end with a short buffer — both sessions yield no
segments and simply end.  The exception is caught and logged (lines
330-331), not surfaced to the consumer as a distinguishable terminal
error. -/
theorem device_error_indistinguishable_counterexample :
    recordContinuous defaultAudioConfig defaultVADConfig 0
        [ContItem.deviceError]
      = recordContinuous defaultAudioConfig defaultVADConfig 0
          [ContItem.stopSignal, ContItem.poll] ∧
    recordContinuous defaultAudioConfig defaultVADConfig 0
        [ContItem.deviceError] = ([] : List (List Sample)) := by
  decide

/-- Claim C9 (amended): in continuous mode a device-level I/O failure aborts
the whole session — the generator stops yielding immediately, without even
the final flush, whatever the rest of the session script holds — but the
failure is caught and logged rather than surfaced: the consumer sees a
plain end of the sequence, identical to the cooperative end-of-stream
produced by `stop_continuous()` when the remaining buffer is below the
minimum. -/
theorem device_error_silently_aborts (a : AudioConfig) (v : VADConfig)
    (st st2 : RecState) (rest rest2 : List ContItem)
    (hs2 : st2.stop_continuous = true)
    (hlen : (st2.buffer.length : ℤ) < minSpeechSamples a) :
    contLoop a v st (ContItem.deviceError :: rest) = [] ∧
    contLoop a v st (ContItem.deviceError :: rest)
      = contLoop a v st2 (ContItem.poll :: rest2) := by
  have h1 : contLoop a v st (ContItem.deviceError :: rest) = [] := by
    unfold contLoop
    rfl
  have h2 : contLoop a v st2 (ContItem.poll :: rest2) = [] := by
    unfold contLoop
    rw [if_pos hs2, if_neg (not_le.mpr hlen)]
  exact ⟨h1, by rw [h1, h2]⟩

/-- Witness for the amended C9: a device error right after a continuous
session starts ends the sequence with no output, exactly like an immediate
stop. -/
theorem device_error_silently_aborts_witness :
    contLoop defaultAudioConfig defaultVADConfig (initState 0 true)
        [ContItem.deviceError] = ([] : List (List Sample)) ∧
    contLoop defaultAudioConfig defaultVADConfig (initState 0 true)
        [ContItem.deviceError]
      = contLoop defaultAudioConfig defaultVADConfig
          (stopContinuous (initState 0 true)) [ContItem.poll] :=
  device_error_silently_aborts defaultAudioConfig defaultVADConfig
    (initState 0 true) (stopContinuous (initState 0 true)) [] []
    (by decide) (by decide)

/-- A tiny continuous session: one speech block, one silence block past the
cutoff (completing a segment), then a poll yielding it. -/
def wContItems : List ContItem :=
  [ContItem.block [9] (mkRat 9 10) (mkRat 1 4),
   ContItem.block [4] 0 (mkRat 3 2),
   ContItem.poll]

/-- Claim C10: every audio segment delivered to the caller — the array
returned by `record_until_silence` and every array yielded by
`record_continuous`, including the final flush — has length at most
`max_recording_duration * sample_rate`: the main buffer is a bounded ring
buffer of exactly that capacity, every emitted segment is a snapshot of it
(pre-roll content having been merged into the same bounded buffer), and
both sessions start from an empty buffer. -/
theorem delivered_segments_bounded (a : AudioConfig) (v : VADConfig)
    (t0 : ℚ) (items : List SessionItem) (script : List ContItem)
    (data seg : List Sample) (cause : ExitCause) (stE : RecState) :
    (recordUntilSilence a v t0 items = some (some data, cause, stE) →
      data.length ≤ maxSamples a) ∧
    (seg ∈ recordContinuous a v t0 script → seg.length ≤ maxSamples a) := by
  constructor
  · intro h
    obtain ⟨hinv, hd⟩ := recordLoop_spec a v t0 items _ (some data) cause stE h
      (bufferInv_init a t0 false)
    rw [hd data rfl]
    exact hinv.1
  · intro h
    exact contLoop_bounded a v script _ (bufferInv_init a t0 true) seg h

/-- Witness for C10: the audio returned by the tiny single-shot session and
the segment yielded by the tiny continuous session both fit the 6-sample
main-buffer capacity of `tinyAudioConfig`. -/
theorem delivered_segments_bounded_witness :
    ([7, 8] : List Sample).length ≤ maxSamples tinyAudioConfig ∧
    ([9, 4] : List Sample).length ≤ maxSamples tinyAudioConfig :=
  ⟨(delivered_segments_bounded tinyAudioConfig defaultVADConfig 0
      wSingleItems wContItems [7, 8] [9, 4] ExitCause.stoppedRecording
      wSingleExit).1 (by decide),
    (delivered_segments_bounded tinyAudioConfig defaultVADConfig 0
      wSingleItems wContItems [7, 8] [9, 4] ExitCause.stoppedRecording
      wSingleExit).2 (by decide)⟩

end STTClipboard
